import Mathlib

/-
Verification of the audio-capture worker (audio_worker.py).

The worker is a child process with a single Recorder object (the Capture
Engine) and a control loop (main) that reads JSON lines, dispatches to the
Recorder, and writes JSON responses.  We embed the Recorder state machine,
the per-message dispatch of main, and the event-level run of the loop
(control lines interleaved with asynchronous audio-callback deliveries).

External effects are made explicit:
  - stream opening may fail (openFails oracle in start),
  - stream abort/close during teardown may raise (tearFails oracle); the
    source swallows such errors inside a try/except, which we record in a
    logged flag,
  - the file written by stop is returned as a WavFile value,
  - the order of the assignments inside stop is recorded as a trace of
    StopAction events, in source statement order.

float32 samples are modelled as rationals; the numpy astype(int16) cast
is modelled as C truncation toward zero followed by wrapping modulo 2^16
into the signed 16-bit range.
-/

/-- A JSON scalar as it appears in the worker protocol fields.  Python
None and JSON null are both rendered as jnull (dict.get conflates an
absent key with a null value). -/
inductive JVal where
  | jnull : JVal
  | jint : Int → JVal
  | jstr : String → JVal
  | jbool : Bool → JVal
deriving DecidableEq, BEq

/-- message.get(k): an absent field and a null field both read as null. -/
def pyGet : Option JVal → JVal
  | none => JVal.jnull
  | some v => v

/-- Python truthiness of a JSON scalar. -/
def pyTruthy : JVal → Bool
  | JVal.jnull => false
  | JVal.jint n => decide (n ≠ 0)
  | JVal.jstr s => decide (s ≠ "")
  | JVal.jbool b => b

/-- Python x or d : x if truthy, else d. -/
def pyOr (x d : JVal) : JVal :=
  if pyTruthy x then x else d

/-- Python int(x) on a JSON scalar; raises on null and unparseable strings. -/
def pyToInt : JVal → Except String Int
  | JVal.jint n => Except.ok n
  | JVal.jbool b => Except.ok (if b then 1 else 0)
  | JVal.jstr s =>
      match s.toInt? with
      | some n => Except.ok n
      | none => Except.error ("invalid literal for int(): " ++ s)
  | JVal.jnull => Except.error ("int() argument must not be None")

/-- Python str(x) on a JSON scalar. -/
def pyStr : JVal → String
  | JVal.jstr s => s
  | JVal.jint n => toString n
  | JVal.jbool b => if b then "True" else "False"
  | JVal.jnull => "None"

/-- Python (x or d) for an optional int attribute, as in
int(self._sample_rate or 16000). -/
def pyOrInt (x : Option Int) (d : Int) : Int :=
  match x with
  | none => d
  | some n => if n = 0 then d else n

/-- One frame: the simultaneous float samples across all channels. -/
abbrev Frame := List ℚ

/-- One block: the batch of frames delivered by one callback invocation
(one row of indata per frame). -/
abbrev Block := List Frame

/-- Truncation toward zero of a rational, the C float-to-integer cast. -/
def ratTrunc (q : ℚ) : Int :=
  if 0 ≤ q then ⌊q⌋ else ⌈q⌉

/-- Wrap an integer into the signed 16-bit range, modulo 2^16. -/
def wrap16 (n : Int) : Int :=
  (n + 32768) % 65536 - 32768

/-- The conversion (audio * 32767).astype(np.int16) applied to one sample:
scale by 32767, truncate toward zero, wrap modulo 2^16 into int16. -/
def floatToInt16 (x : ℚ) : Int :=
  wrap16 (ratTrunc (x * 32767))

/-- The saturating alternative the spec contrasts with: clamp the truncated
value into [-32768, 32767].  (Stated from the spec wording only, for
comparison; the source does not clamp.) -/
def saturateToInt16 (x : ℚ) : Int :=
  max (-32768) (min 32767 (ratTrunc (x * 32767)))

/-- The Recorder's mutable attributes (Session state). -/
structure RecorderState where
  recording : Bool
  stream : Option Nat
  chunks : List Block
  sampleRate : Option Int
  channels : Option Int
deriving DecidableEq

/-- Recorder.__init__. -/
def Recorder.init : RecorderState :=
  { recording := false, stream := none, chunks := [], sampleRate := none, channels := none }

/-- Recorder.start.  openFails models the external InputStream open (or its
start call) raising; the exception leaves the already-performed attribute
assignments in place, faithful to the source's statement order (chunks,
sample rate, channels and the recording flag are set before the stream is
opened, and the stream handle only after a successful open). -/
def Recorder.start (s : RecorderState) (device : Option JVal) (sampleRate channels : Int)
    (openFails : Bool) (handle : Nat) : RecorderState × Except String Unit :=
  if s.recording then (s, Except.error ("Already recording"))
  else
    let s1 : RecorderState :=
      { s with chunks := [], sampleRate := some sampleRate,
               channels := some channels, recording := true }
    if openFails then (s1, Except.error ("Error opening InputStream"))
    else ({ s1 with stream := some handle }, Except.ok ())

/-- The gate the audio callback reads: if self._recording. -/
def Recorder.cbGate (s : RecorderState) : Bool :=
  s.recording

/-- The append the audio callback performs: self._chunks.append(indata.copy()). -/
def Recorder.cbAppend (s : RecorderState) (indata : Block) : RecorderState :=
  { s with chunks := s.chunks ++ [indata] }

/-- The audio callback body, as executed atomically: gate then append. -/
def Recorder.callback (s : RecorderState) (indata : Block) : RecorderState :=
  if Recorder.cbGate s then Recorder.cbAppend s indata else s

/-- The observable effects inside Recorder.stop, in statement order. -/
inductive StopAction where
  | markInactive : StopAction
  | takeStream : StopAction
  | takeBuffer : StopAction
  | abortClose : StopAction
  | writeFile : StopAction
deriving DecidableEq, BEq

/-- The wav file written by scipy wavfile.write. -/
structure WavFile where
  path : String
  rate : Int
  data : List (List Int)
deriving DecidableEq

/-- What one call of Recorder.stop produces. -/
structure StopResult where
  state : RecorderState
  frames : Nat
  file : Option WavFile
  logged : Bool
  trace : List StopAction
deriving DecidableEq

/-- Recorder.stop.  tearFails models the stream abort/close raising; the
source catches that exception and only logs it (the logged flag).  The
trace records the source's statement order: flip the recording flag, take
the stream handle, take the chunk list (resetting it to empty), then
abort/close the taken stream if there is one, then write the file if there
are chunks. -/
def Recorder.stop (s : RecorderState) (wavPath : String) (tearFails : Bool) : StopResult :=
  if s.recording = false then
    { state := s, frames := 0, file := none, logged := false, trace := [] }
  else
    let stream := s.stream
    let chunks := s.chunks
    let s1 : RecorderState := { s with recording := false, stream := none, chunks := [] }
    let logged := stream.isSome && tearFails
    let trace0 := [StopAction.markInactive, StopAction.takeStream, StopAction.takeBuffer]
      ++ (if stream.isSome then [StopAction.abortClose] else [])
    if chunks = [] then
      { state := s1, frames := 0, file := none, logged := logged, trace := trace0 }
    else
      let audio : List Frame := chunks.flatten
      let frames := audio.length
      let audio16 := audio.map (fun fr => fr.map floatToInt16)
      { state := s1, frames := frames,
        file := some { path := wavPath, rate := pyOrInt s.sampleRate 16000, data := audio16 },
        logged := logged,
        trace := trace0 ++ [StopAction.writeFile] }

/-- Recorder.cancel: unconditionally flip the flag, discard chunks, take and
tear down the stream, swallowing (only logging) any teardown error. -/
def Recorder.cancel (s : RecorderState) (tearFails : Bool) : RecorderState × Bool :=
  let s1 : RecorderState := { s with recording := false, chunks := [], stream := none }
  (s1, s.stream.isSome && tearFails)

/-- Recorder.shutdown = self.cancel(). -/
def Recorder.shutdown (s : RecorderState) (tearFails : Bool) : RecorderState × Bool :=
  Recorder.cancel s tearFails

/-- An inbound message as parsed by json.loads: the fields main reads. -/
structure Msg where
  type : Option JVal
  id : Option JVal
  device : Option JVal
  sample_rate : Option JVal
  channels : Option JVal
  wav_path : Option JVal
deriving DecidableEq

/-- One input line, after main's json.loads attempt: malformed (blank or not
parseable as JSON: json.loads raises, main logs and continues), nonRecord
(parseable as JSON but not an object, e.g. 123 or a string or an array:
json.loads succeeds but message.get then raises AttributeError outside both
try blocks), or a record (a JSON object; absent fields read as null). -/
inductive InLine where
  | malformed : String → InLine
  | nonRecord : String → InLine
  | record : Msg → InLine

/-- Outbound protocol messages.  started, stopped, canceled and error carry
an id field whose value is the request's (null when the request had none);
ready and shutdown_ack carry no id field at all. -/
inductive Response where
  | ready : Response
  | started : JVal → Response
  | stopped : JVal → JVal → Nat → Response
  | canceled : JVal → Response
  | shutdownAck : Response
  | error : JVal → String → Response
deriving DecidableEq

/-- The id field of a response, none when the response has no id field. -/
def Response.rid : Response → Option JVal
  | Response.ready => none
  | Response.started i => some i
  | Response.stopped i _ _ => some i
  | Response.canceled i => some i
  | Response.shutdownAck => none
  | Response.error i _ => some i

/-- The external-failure oracle for one request: whether the stream open
raises during start, whether abort/close raises during teardown, and the
handle the audio library would return for a successfully opened stream. -/
structure Orc where
  openFails : Bool
  tearFails : Bool
  handle : Nat

/-- The recognized inbound type values. -/
def recognizedType (t : JVal) : Bool :=
  decide (t = JVal.jstr ("start")) || decide (t = JVal.jstr ("stop"))
    || decide (t = JVal.jstr ("cancel")) || decide (t = JVal.jstr ("shutdown"))

/-- The body of main's per-message handling: dispatch on type, call the
Recorder inside the try/except that converts any exception into an error
response carrying the request's id.  Returns the new Recorder state, the
responses written for this message, and whether the loop returns
(shutdown).  Unknown types are only logged: no response. -/
def handleMsg (rec : RecorderState) (m : Msg) (o : Orc) :
    RecorderState × List Response × Bool :=
  let msgType := pyGet m.type
  let reqId := pyGet m.id
  if msgType = JVal.jstr ("shutdown") then
    let c := Recorder.shutdown rec o.tearFails
    (c.1, [Response.shutdownAck], true)
  else if msgType = JVal.jstr ("start") then
    match pyToInt (pyOr (pyGet m.sample_rate) (JVal.jint 16000)),
          pyToInt (pyOr (pyGet m.channels) (JVal.jint 1)) with
    | Except.ok sr, Except.ok ch =>
      match Recorder.start rec m.device sr ch o.openFails o.handle with
      | (rec2, Except.ok _) => (rec2, [Response.started reqId], false)
      | (rec2, Except.error e) => (rec2, [Response.error reqId e], false)
    | Except.error e, _ => (rec, [Response.error reqId e], false)
    | Except.ok _, Except.error e => (rec, [Response.error reqId e], false)
  else if msgType = JVal.jstr ("stop") then
    let wp := pyGet m.wav_path
    if pyTruthy wp = false then
      (rec, [Response.error reqId ("Missing wav_path")], false)
    else
      let r := Recorder.stop rec (pyStr wp) o.tearFails
      (r.state, [Response.stopped reqId wp r.frames], false)
  else if msgType = JVal.jstr ("cancel") then
    let c := Recorder.cancel rec o.tearFails
    (c.1, [Response.canceled reqId], false)
  else
    (rec, [], false)

/-- One event seen by the worker process: a line arriving on stdin (with
the failure oracle for the external calls it triggers), or an asynchronous
delivery of one block by the audio callback. -/
inductive Event where
  | line : InLine → Orc → Event
  | deliver : Block → Event

/-- The worker loop over an event sequence, returning the responses written:
malformed (non-JSON) lines are logged and skipped, records are dispatched,
deliveries run the callback, and a shutdown record ends the loop cleanly.
A nonRecord line kills the loop: message.get("type") raises AttributeError
outside both try/except blocks, the exception escapes main and the process
dies with a traceback, so no response is written for that line or for any
later one. -/
def runEvents : RecorderState → List Event → List Response
  | _, [] => []
  | rec, Event.deliver b :: rest => runEvents (Recorder.callback rec b) rest
  | rec, Event.line (InLine.malformed _) _ :: rest => runEvents rec rest
  | _, Event.line (InLine.nonRecord _) _ :: _ => []
  | rec, Event.line (InLine.record m) o :: rest =>
    let r := handleMsg rec m o
    if r.2.2 then r.2.1 else r.2.1 ++ runEvents r.1 rest

/-- The whole worker: the ready line, then the loop from the fresh Recorder. -/
def runWorker (evs : List Event) : List Response :=
  Response.ready :: runEvents Recorder.init evs

/-- `active == true ⇔ stream handle set and sample rate / channel count set`
(the spec's Session invariant). -/
def sessionInv (s : RecorderState) : Prop :=
  s.recording = true ↔ (s.stream.isSome = true ∧ s.sampleRate.isSome = true ∧ s.channels.isSome = true)

instance (s : RecorderState) : Decidable (sessionInv s) := by
  unfold sessionInv
  infer_instance

/-- The oracle with no external failures. -/
def noFail : Orc :=
  { openFails := false, tearFails := false, handle := 0 }

/-- A start message with integer-valued rate and channel fields. -/
def mkStartMsg (rid : Option JVal) (sr ch : Int) : Msg :=
  { type := some (JVal.jstr ("start")), id := rid, device := none,
    sample_rate := some (JVal.jint sr), channels := some (JVal.jint ch),
    wav_path := none }

/-- A stop message with a string path. -/
def mkStopMsg (rid : Option JVal) (path : String) : Msg :=
  { type := some (JVal.jstr ("stop")), id := rid, device := none,
    sample_rate := none, channels := none, wav_path := some (JVal.jstr path) }

/-- A cancel message. -/
def mkCancelMsg (rid : Option JVal) : Msg :=
  { type := some (JVal.jstr ("cancel")), id := rid, device := none,
    sample_rate := none, channels := none, wav_path := none }

/-- A shutdown message. -/
def mkShutdownMsg (rid : Option JVal) : Msg :=
  { type := some (JVal.jstr ("shutdown")), id := rid, device := none,
    sample_rate := none, channels := none, wav_path := none }

/-- An active session holding one delivered block of one zero-valued frame. -/
def activeDemo : RecorderState :=
  { recording := true, stream := some 0, chunks := [[[0]]],
    sampleRate := some 16000, channels := some 1 }

/-- An active session holding one block whose single sample is 2.0,
outside [-1.0, 1.0]. -/
def clipDemo : RecorderState :=
  { recording := true, stream := some 0, chunks := [[[2]]],
    sampleRate := some 16000, channels := some 1 }

/-- The run of one start request whose stream open raises: the loop catches
the exception and answers with an error response, and continues with
whatever state the partially executed start left behind. -/
def failedStartRun : RecorderState × List Response × Bool :=
  handleMsg Recorder.init (mkStartMsg (some (JVal.jstr ("9"))) 16000 1)
    { openFails := true, tearFails := false, handle := 0 }

/-! Helper lemmas. -/

lemma wrap16_eq_self {n : Int} (h1 : -32768 ≤ n) (h2 : n ≤ 32767) : wrap16 n = n := by
  unfold wrap16
  rw [Int.emod_eq_of_lt (by linarith) (by linarith)]
  ring

lemma ratTrunc_le_of_le {q : ℚ} {B : Int} (hB : 0 ≤ B) (h : q ≤ (B : ℚ)) : ratTrunc q ≤ B := by
  unfold ratTrunc
  split
  · exact_mod_cast le_trans (Int.floor_le q) h
  · have h0 : q ≤ (0 : ℚ) := le_of_not_le (by assumption)
    calc ⌈q⌉ ≤ ⌈(0:ℚ)⌉ := Int.ceil_le_ceil h0
    _ = 0 := by simp
    _ ≤ B := hB

lemma neg_le_ratTrunc {q : ℚ} {B : Int} (hB : 0 ≤ B) (h : (-(B:ℚ)) ≤ q) : -B ≤ ratTrunc q := by
  unfold ratTrunc
  split
  · have h0 : (0:ℚ) ≤ q := by assumption
    have : 0 ≤ ⌊q⌋ := Int.floor_nonneg.mpr h0
    linarith
  · have : (-(B:ℚ)) ≤ (⌈q⌉ : ℚ) := le_trans h (Int.le_ceil q)
    exact_mod_cast this

lemma floatToInt16_two : floatToInt16 2 = -2 := by
  unfold floatToInt16 ratTrunc wrap16
  rw [show (2:ℚ) * 32767 = ((65534:Int):ℚ) by norm_num]
  rw [if_pos (by positivity), Int.floor_intCast]
  decide

lemma floatToInt16_neg_two : floatToInt16 (-2) = 2 := by
  unfold floatToInt16 ratTrunc wrap16
  rw [show (-2:ℚ) * 32767 = ((-65534:Int):ℚ) by norm_num]
  rw [if_neg (by norm_num), Int.ceil_intCast]
  decide

lemma saturateToInt16_two : saturateToInt16 2 = 32767 := by
  unfold saturateToInt16 ratTrunc
  rw [show (2:ℚ) * 32767 = ((65534:Int):ℚ) by norm_num]
  rw [if_pos (by positivity), Int.floor_intCast]
  decide

lemma saturateToInt16_neg_two : saturateToInt16 (-2) = -32768 := by
  unfold saturateToInt16 ratTrunc
  rw [show (-2:ℚ) * 32767 = ((-65534:Int):ℚ) by norm_num]
  rw [if_neg (by norm_num), Int.ceil_intCast]
  decide

lemma runEvents_deliver (rec : RecorderState) (h : rec.recording = true)
    (blocks : List Block) (rest : List Event) :
    runEvents rec (blocks.map Event.deliver ++ rest)
      = runEvents { rec with chunks := rec.chunks ++ blocks } rest := by
  induction blocks generalizing rec with
  | nil => simp
  | cons b bs ih =>
      simp only [List.map_cons, List.cons_append, runEvents, List.append_eq]
      rw [Recorder.callback, if_pos (by simpa [Recorder.cbGate] using h)]
      rw [ih _ (by simpa [Recorder.cbAppend] using h)]
      simp [Recorder.cbAppend]

lemma handleMsg_start_ok (s : RecorderState) (h : s.recording = false) (rid : Option JVal)
    (sr ch : Int) (o : Orc) (ho : o.openFails = false) :
    handleMsg s (mkStartMsg rid sr ch) o
      = ({ s with
            recording := true, stream := some o.handle, chunks := [],
            sampleRate := some (pyOrInt (some sr) 16000),
            channels := some (pyOrInt (some ch) 1) },
         [Response.started (pyGet rid)], false) := by
  by_cases hsr : sr = 0 <;> by_cases hch : ch = 0 <;>
    simp [handleMsg, mkStartMsg, pyGet, pyOr, pyTruthy, pyToInt, pyOrInt,
      Recorder.start, h, ho, hsr, hch]

lemma handleMsg_stop_active (s : RecorderState) (h : s.recording = true) (rid : Option JVal)
    (path : String) (hp : path ≠ "") (o : Orc) :
    handleMsg s (mkStopMsg rid path) o
      = ({ s with
            recording := false, stream := none, chunks := [] },
         [Response.stopped (pyGet rid) (JVal.jstr path) (s.chunks.map List.length).sum],
         false) := by
  by_cases hc : s.chunks = [] <;>
    simp [handleMsg, mkStopMsg, pyGet, pyTruthy, pyStr, hp,
      Recorder.stop, h, hc, List.length_flatten]

/-! Claim theorems. -/

/-- C1: a session consisting of a successful start, delivery of one or more
audio blocks, then a stop with a non-empty output path, answers the stop
with a stopped response whose frames field is the total number of sample
frames delivered across all blocks in arrival order. -/
theorem c1_total_frames (sr ch : Int) (blocks : List Block) (_hb : blocks ≠ [])
    (path : String) (hp : path ≠ "") (rid : Option JVal) (o1 o2 : Orc)
    (ho : o1.openFails = false) :
    runEvents Recorder.init
      (Event.line (InLine.record (mkStartMsg none sr ch)) o1
        :: (blocks.map Event.deliver
            ++ [Event.line (InLine.record (mkStopMsg rid path)) o2]))
      = [Response.started JVal.jnull,
         Response.stopped (pyGet rid) (JVal.jstr path) (blocks.map List.length).sum] := by
  have h1 := handleMsg_start_ok Recorder.init rfl none sr ch o1 ho
  simp only [runEvents, h1]
  rw [runEvents_deliver _ rfl]
  have h2 := handleMsg_stop_active
    { Recorder.init with
        recording := true, stream := some o1.handle, chunks := [] ++ blocks,
        sampleRate := some (pyOrInt (some sr) 16000),
        channels := some (pyOrInt (some ch) 1) } rfl rid path hp o2
  simp only [runEvents, h2]
  simp [pyGet]

/-- Witness for C1: two blocks of one and two frames give frames = 3. -/
theorem c1_total_frames_witness :
    runEvents Recorder.init
      (Event.line (InLine.record (mkStartMsg none 16000 1)) noFail
        :: (([[[0]], [[0], [0]]] : List Block).map Event.deliver
            ++ [Event.line (InLine.record (mkStopMsg (some (JVal.jstr ("7"))) ("out.wav"))) noFail]))
      = [Response.started JVal.jnull,
         Response.stopped (JVal.jstr ("7")) (JVal.jstr ("out.wav")) 3] :=
  c1_total_frames 16000 1 [[[0]], [[0], [0]]] (by decide) ("out.wav") (by decide)
    (some (JVal.jstr ("7"))) noFail noFail rfl

/-- C2 (amended): every request with a recognized type that the loop reaches
receives exactly one response; for start, stop and cancel requests (and for
error responses) that response carries the request's id unchanged (null when
the request had none); the shutdown acknowledgment carries no id field at
all; unrecognized types yield no response and the loop continues; non-JSON
lines yield no response and the loop continues; a line that parses as JSON
but is not an object yields no response and terminates the loop (uncaught
AttributeError), so no later request receives a response either. -/
theorem c2_one_response (rec : RecorderState) (m : Msg) (o : Orc) :
    (recognizedType (pyGet m.type) = true →
       (handleMsg rec m o).2.1.length = 1
         ∧ (pyGet m.type ≠ JVal.jstr ("shutdown") →
              ∀ r ∈ (handleMsg rec m o).2.1, Response.rid r = some (pyGet m.id))
         ∧ (pyGet m.type = JVal.jstr ("shutdown") →
              (handleMsg rec m o).2.1 = [Response.shutdownAck]))
    ∧ (recognizedType (pyGet m.type) = false → (handleMsg rec m o).2.1 = [])
    ∧ (∀ raw o2 rest, runEvents rec (Event.line (InLine.malformed raw) o2 :: rest)
        = runEvents rec rest)
    ∧ (∀ raw o2 rest, runEvents rec (Event.line (InLine.nonRecord raw) o2 :: rest)
        = []) := by
  refine ⟨?_, ?_, ?_, ?_⟩
  · intro hrec
    by_cases h1 : pyGet m.type = JVal.jstr ("shutdown")
    · simp [handleMsg, h1]
    · by_cases h2 : pyGet m.type = JVal.jstr ("start")
      · rcases hsr : pyToInt (pyOr (pyGet m.sample_rate) (JVal.jint 16000)) with e | n
        · simp [handleMsg, h1, h2, hsr, Response.rid]
        · rcases hch : pyToInt (pyOr (pyGet m.channels) (JVal.jint 1)) with e | c
          · simp [handleMsg, h1, h2, hsr, hch, Response.rid]
          · rcases hst : Recorder.start rec m.device n c o.openFails o.handle with ⟨rec2, r⟩
            cases r <;> simp [handleMsg, h1, h2, hsr, hch, hst, Response.rid]
      · by_cases h3 : pyGet m.type = JVal.jstr ("stop")
        · by_cases hw : pyTruthy (pyGet m.wav_path) = false <;>
            simp [handleMsg, h1, h2, h3, hw, Response.rid]
        · by_cases h4 : pyGet m.type = JVal.jstr ("cancel")
          · simp [handleMsg, h1, h2, h3, h4, Response.rid]
          · exfalso
            unfold recognizedType at hrec
            simp [h1, h2, h3, h4] at hrec
  · intro hrec
    unfold recognizedType at hrec
    simp only [Bool.or_eq_false_iff, decide_eq_false_iff_not] at hrec
    simp [handleMsg, hrec.1.1.1, hrec.1.1.2, hrec.1.2, hrec.2]
  · intro raw o2 rest
    simp [runEvents]
  · intro raw o2 rest
    simp [runEvents]

/-- Witness for C2 (amended), at a cancel request carrying id x. -/
theorem c2_one_response_witness :
    (handleMsg Recorder.init (mkCancelMsg (some (JVal.jstr ("x")))) noFail).2.1.length = 1 := by
  have h := c2_one_response Recorder.init (mkCancelMsg (some (JVal.jstr ("x")))) noFail
  exact (h.1 (by decide)).1

/-- Counterexample to C2 as stated, in two parts.  First, a shutdown request
carrying id 9 is answered by a shutdown_ack response that carries no id
field, so the response does not carry the request's correlation identifier.
Second, a line that parses as JSON but is not an object (here 123) kills the
loop, so a well-formed cancel request carrying id c that arrives after it
receives no response at all: the exactly-one-response universal fails. -/
theorem c2_shutdown_drops_id :
    ((handleMsg Recorder.init (mkShutdownMsg (some (JVal.jstr ("9")))) noFail).2.1
        = [Response.shutdownAck]
    ∧ Response.rid Response.shutdownAck ≠ some (JVal.jstr ("9")))
    ∧ runEvents Recorder.init
        [Event.line (InLine.nonRecord ("123")) noFail,
         Event.line (InLine.record (mkCancelMsg (some (JVal.jstr ("c"))))) noFail]
        = [] := by
  decide

/-- Counterexample to C3 as stated: in the trace of a stop on an active
session with a live stream, the abort/close does not precede taking
ownership of the buffer; the buffer is taken first. -/
theorem c3_abort_not_before_buffer_take :
    ¬ ((Recorder.stop activeDemo ("out.wav") false).trace.indexOf StopAction.abortClose
        < (Recorder.stop activeDemo ("out.wav") false).trace.indexOf StopAction.takeBuffer) := by
  decide

/-- C3 (amended): when stop is called on an active session its effects
occur in this order: first the session is marked inactive, second ownership
of the stream handle and of the accumulated buffer is taken (the buffer
reset to empty), and only third are the stream abort and close requested
(when a stream handle exists), followed by the file write when the buffer
was non-empty. -/
theorem c3_stop_order (s : RecorderState) (path : String) (tf : Bool)
    (h : s.recording = true) :
    (Recorder.stop s path tf).trace
      = [StopAction.markInactive, StopAction.takeStream, StopAction.takeBuffer]
          ++ (if s.stream.isSome then [StopAction.abortClose] else [])
          ++ (if s.chunks = [] then [] else [StopAction.writeFile]) := by
  by_cases hc : s.chunks = [] <;> simp [Recorder.stop, h, hc]

/-- Witness for C3 (amended) on a concrete active session. -/
theorem c3_stop_order_witness :
    (Recorder.stop activeDemo ("o.wav") false).trace
      = [StopAction.markInactive, StopAction.takeStream, StopAction.takeBuffer,
         StopAction.abortClose, StopAction.writeFile] := by
  rw [c3_stop_order activeDemo ("o.wav") false (by decide)]
  decide

/-- C4: start while the session is already active fails with the
Already-recording error, the control loop reports it as an error response
carrying the request's id, and no session state changes: the buffer, the
active flag, the stream handle, and the sample rate and channel count all
retain their prior values (the whole state is returned unchanged). -/
theorem c4_start_while_active (s : RecorderState) (h : s.recording = true)
    (d : Option JVal) (sr ch : Int) (of : Bool) (hd : Nat)
    (rid : Option JVal) (sr2 ch2 : Int) (o : Orc) :
    Recorder.start s d sr ch of hd = (s, Except.error ("Already recording"))
    ∧ handleMsg s (mkStartMsg rid sr2 ch2) o
        = (s, [Response.error (pyGet rid) ("Already recording")], false) := by
  constructor
  · simp [Recorder.start, h]
  · by_cases hsr : sr2 = 0 <;> by_cases hch : ch2 = 0 <;>
      simp [handleMsg, mkStartMsg, pyGet, pyOr, pyTruthy, pyToInt,
        Recorder.start, h, hsr, hch]

/-- Witness for C4 on a concrete active session. -/
theorem c4_start_while_active_witness :
    Recorder.start activeDemo none 16000 1 false 0
        = (activeDemo, Except.error ("Already recording"))
    ∧ handleMsg activeDemo (mkStartMsg (some (JVal.jstr ("a"))) 16000 1) noFail
        = (activeDemo, [Response.error (JVal.jstr ("a")) ("Already recording")], false) :=
  c4_start_while_active activeDemo rfl none 16000 1 false 0 (some (JVal.jstr ("a"))) 16000 1 noFail

/-- C5: a cancel request always yields a canceled response, in every state
and under every teardown-failure oracle; and for both stop and cancel a
teardown error is swallowed: the resulting state, frame count and written
file are identical whether or not abort/close raises, and a stop request
with a valid path always completes with a stopped response. -/
theorem c5_cancel_and_teardown (s : RecorderState) (o : Orc) (rid : Option JVal)
    (path : String) (tf tf2 : Bool) :
    handleMsg s (mkCancelMsg rid) o
        = ((Recorder.cancel s o.tearFails).1, [Response.canceled (pyGet rid)], false)
    ∧ (Recorder.cancel s tf).1 = (Recorder.cancel s tf2).1
    ∧ (Recorder.stop s path tf).state = (Recorder.stop s path tf2).state
    ∧ (Recorder.stop s path tf).frames = (Recorder.stop s path tf2).frames
    ∧ (Recorder.stop s path tf).file = (Recorder.stop s path tf2).file
    ∧ (path ≠ "" → ∃ n, handleMsg s (mkStopMsg rid path) o
          = ((Recorder.stop s path o.tearFails).state,
             [Response.stopped (pyGet rid) (JVal.jstr path) n], false)) := by
  refine ⟨?_, ?_, ?_, ?_, ?_, ?_⟩
  · simp [handleMsg, mkCancelMsg, pyGet]
  · simp [Recorder.cancel]
  · by_cases hr : s.recording = false <;> by_cases hc : s.chunks = [] <;>
      simp [Recorder.stop, hr, hc]
  · by_cases hr : s.recording = false <;> by_cases hc : s.chunks = [] <;>
      simp [Recorder.stop, hr, hc]
  · by_cases hr : s.recording = false <;> by_cases hc : s.chunks = [] <;>
      simp [Recorder.stop, hr, hc]
  · intro hp
    refine ⟨(Recorder.stop s (pyStr (JVal.jstr path)) o.tearFails).frames, ?_⟩
    simp [handleMsg, mkStopMsg, pyGet, pyTruthy, pyStr, hp]

/-- Witness for C5: a stop on a concrete active session completes with a
stopped response. -/
theorem c5_cancel_and_teardown_witness :
    ∃ n, handleMsg activeDemo (mkStopMsg none ("o.wav")) noFail
        = ((Recorder.stop activeDemo ("o.wav") noFail.tearFails).state,
           [Response.stopped (pyGet none) (JVal.jstr ("o.wav")) n], false) :=
  (c5_cancel_and_teardown activeDemo noFail none ("o.wav") true false).2.2.2.2.2 (by decide)

/-- C6: stop while inactive is a no-op: it returns frame count 0, writes no
file and leaves the state untouched; a stop right after a cancel likewise
returns 0 with no file; and the control loop answers such a stop request
with a stopped response carrying frames 0, not an error. -/
theorem c6_stop_inactive (s s2 : RecorderState) (h : s.recording = false)
    (path : String) (hp : path ≠ "") (tf tf2 tf3 : Bool) (rid : Option JVal) (o : Orc) :
    Recorder.stop s path tf
        = { state := s, frames := 0, file := none, logged := false, trace := [] }
    ∧ (Recorder.stop (Recorder.cancel s2 tf2).1 path tf3).frames = 0
    ∧ (Recorder.stop (Recorder.cancel s2 tf2).1 path tf3).file = none
    ∧ handleMsg s (mkStopMsg rid path) o
        = (s, [Response.stopped (pyGet rid) (JVal.jstr path) 0], false) := by
  refine ⟨?_, ?_, ?_, ?_⟩
  · simp [Recorder.stop, h]
  · simp [Recorder.stop, Recorder.cancel]
  · simp [Recorder.stop, Recorder.cancel]
  · simp [handleMsg, mkStopMsg, pyGet, pyTruthy, pyStr, hp, Recorder.stop, h]

/-- Witness for C6 on the freshly initialized Recorder. -/
theorem c6_stop_inactive_witness :
    Recorder.stop Recorder.init ("x.wav") false
        = { state := Recorder.init, frames := 0, file := none, logged := false, trace := [] }
    ∧ handleMsg Recorder.init (mkStopMsg none ("x.wav")) noFail
        = (Recorder.init, [Response.stopped (pyGet none) (JVal.jstr ("x.wav")) 0], false) := by
  have h := c6_stop_inactive Recorder.init Recorder.init rfl ("x.wav") (by decide)
    false false false none noFail
  exact ⟨h.1, h.2.2.2⟩

/-- C7: the callback's guarded append is not atomic with stop's drain and no
synchronization primitive exists; interleaving the two halves of the
callback (the unsynchronized read of the recording flag, then the list
append) around a complete stop shows a block appended to the session buffer
after the logical stop has fully completed. -/
theorem c7_append_after_stop :
    Recorder.cbGate activeDemo = true
    ∧ (Recorder.stop activeDemo ("out.wav") false).state.recording = false
    ∧ (Recorder.stop activeDemo ("out.wav") false).state.chunks = []
    ∧ (Recorder.cbAppend (Recorder.stop activeDemo ("out.wav") false).state [[0]]).chunks
        = [[[0]]]
    ∧ (Recorder.cbAppend (Recorder.stop activeDemo ("out.wav") false).state [[0]]).recording
        = false := by
  decide

/-- C8: the float-to-PCM conversion scales by 32767 and truncates toward
zero without clamping: inside [-1.0, 1.0] it is exactly the truncation, and
out-of-range samples wrap per integer truncation semantics rather than
saturating (2.0 maps to -2, -2.0 maps to 2, whereas saturation would give
32767 and -32768), and stop writes the wrapped values to the file. -/
theorem c8_truncate_no_clamp :
    (∀ x : ℚ, -1 ≤ x → x ≤ 1 → floatToInt16 x = ratTrunc (x * 32767))
    ∧ floatToInt16 2 = -2 ∧ saturateToInt16 2 = 32767
    ∧ floatToInt16 (-2) = 2 ∧ saturateToInt16 (-2) = -32768
    ∧ (Recorder.stop clipDemo ("out.wav") false).file
        = some { path := ("out.wav"), rate := 16000, data := [[-2]] } := by
  refine ⟨?_, floatToInt16_two, saturateToInt16_two,
    floatToInt16_neg_two, saturateToInt16_neg_two, ?_⟩
  · intro x h1 h2
    have hu : x * 32767 ≤ ((32767 : Int) : ℚ) := by push_cast; linarith
    have hl : (-((32767 : Int) : ℚ)) ≤ x * 32767 := by push_cast; linarith
    have t1 := ratTrunc_le_of_le (by norm_num) hu
    have t2 := neg_le_ratTrunc (by norm_num) hl
    unfold floatToInt16
    exact wrap16_eq_self (by linarith) (by linarith)
  · simp [Recorder.stop, clipDemo, floatToInt16_two, pyOrInt]

/-- Witness for C8 at the in-range sample 1/2. -/
theorem c8_truncate_no_clamp_witness :
    ((-1 : ℚ) ≤ 1/2 ∧ (1/2 : ℚ) ≤ 1)
    ∧ floatToInt16 (1/2) = ratTrunc ((1/2 : ℚ) * 32767) :=
  ⟨⟨by norm_num, by norm_num⟩,
    c8_truncate_no_clamp.1 (1/2) (by norm_num) (by norm_num)⟩

/-- C9: the Session invariant (active iff stream handle and sample rate and
channel count are set) is violated in a reachable state: a start whose
stream open raises is answered with an error response and the loop
continues, but the Recorder is left with the recording flag true while the
stream handle is unset. -/
theorem c9_invariant_broken_by_failed_open :
    failedStartRun.2.1 = [Response.error (JVal.jstr ("9")) ("Error opening InputStream")]
    ∧ failedStartRun.2.2 = false
    ∧ failedStartRun.1.recording = true
    ∧ failedStartRun.1.stream = none
    ∧ failedStartRun.1.sampleRate = some 16000
    ∧ failedStartRun.1.channels = some 1
    ∧ ¬ sessionInv failedStartRun.1 := by
  refine ⟨by decide, by decide, by decide, by decide, by decide, by decide, ?_⟩
  intro hinv
  have := hinv.mp (by decide)
  revert this
  decide

/-- C10: a start message whose sample_rate or channels field is absent,
null, zero or otherwise falsy starts a session with the defaults 16000 and
1 substituted, answering with a started response. -/
theorem c10_start_defaults (s : RecorderState) (h : s.recording = false)
    (rid dv srv chv wv : Option JVal)
    (hsr : pyTruthy (pyGet srv) = false) (hch : pyTruthy (pyGet chv) = false)
    (tf : Bool) (hd : Nat) :
    handleMsg s
        { type := some (JVal.jstr ("start")), id := rid, device := dv,
          sample_rate := srv, channels := chv, wav_path := wv }
        { openFails := false, tearFails := tf, handle := hd }
      = ({ s with
            recording := true, stream := some hd, chunks := [],
            sampleRate := some 16000, channels := some 1 },
         [Response.started (pyGet rid)], false) := by
  have e1 : pyToInt (pyOr (pyGet srv) (JVal.jint 16000)) = Except.ok 16000 := by
    simp [pyOr, hsr, pyToInt]
  have e2 : pyToInt (pyOr (pyGet chv) (JVal.jint 1)) = Except.ok 1 := by
    simp [pyOr, hch, pyToInt]
  have et : pyGet (some (JVal.jstr ("start"))) = JVal.jstr ("start") := rfl
  simp [handleMsg, et, e1, e2, Recorder.start, h]

/-- Witness for C10: a start with null sample_rate and zero channels. -/
theorem c10_start_defaults_witness :
    handleMsg Recorder.init
        { type := some (JVal.jstr ("start")), id := none, device := none,
          sample_rate := some JVal.jnull, channels := some (JVal.jint 0), wav_path := none }
        { openFails := false, tearFails := false, handle := 0 }
      = ({ Recorder.init with
            recording := true, stream := some 0, chunks := [],
            sampleRate := some 16000, channels := some 1 },
         [Response.started (pyGet none)], false) :=
  c10_start_defaults Recorder.init rfl none none (some JVal.jnull) (some (JVal.jint 0))
    none (by decide) (by decide) false 0
